import Mathlib

/-!
Verification of the UnQTraker location-tracking service (`app.py`).

The service is embedded shallowly:
* JSON scalar values are `JVal` (the claims under study never inspect nested
  arrays/objects, and every field the handlers read is a scalar or absent).
* A request body that parsed to a JSON object is a `Payload`, an association
  list of keys to values; `Payload.pget` mirrors Python's `dict.get(k)`:
  it yields `JVal.null` both for an absent key and for an explicit null,
  exactly as `None` flows through the handler.
* The two JSON files become explicit state (`ServerState`); each handler is a
  pure function from the caller address, the state and the request data to a
  `Response` (and, for the ingest handler, a successor state).
* Server-side nondeterminism (uuid4 calls, `datetime.now()` readings) is
  passed in through `ServerEnv`; per-request header data through `ReqCtx`.
* The ingest handler's console logging step can raise (formatting `None`
  latitude/longitude with `:.6f`, or slicing a non-string session id);
  `logStep` models exactly which records make it raise, and belongs to the
  handler because the surrounding `try/except` turns the raise into a 400
  response.  Error message strings abbreviate the CPython exception text.
-/

namespace GeoTracker

/-- A scalar JSON value as the handlers consume it. -/
inductive JVal where
  | null : JVal
  | bool : Bool → JVal
  | num : ℚ → JVal
  | str : String → JVal
deriving DecidableEq, Repr

/-- Python truthiness of a scalar JSON value (`if v:` / `x or y`). -/
def JVal.truthy : JVal → Bool
  | .null => false
  | .bool b => b
  | .num q => q != 0
  | .str s => s != ""

/-- A request body that parsed as a JSON object: keys to scalar values. -/
abbrev Payload := List (String × JVal)

/-- `data.get(k)`: the value at `k`, or `None` (modelled `JVal.null`) when
absent.  An explicit JSON null and an absent key are indistinguishable here,
exactly as with Python's `dict.get`. -/
def Payload.pget (p : Payload) (k : String) : JVal :=
  (p.lookup k).getD .null

/-- `data.get(k, d)`: the value at `k`, or the default `d` when the key is
absent (an explicit null is returned as null, not replaced by `d`). -/
def Payload.pgetD (p : Payload) (k : String) (d : JVal) : JVal :=
  (p.lookup k).getD d

/-- The `device_info` blob built at ingest (lines 112-141 of `app.py`).
`user_agent` and `ip_address` come from request headers and may be absent
(`none` serialises as null); `referrer` defaults to `"Direct"`. -/
structure DeviceInfo where
  user_agent : Option String
  ip_address : Option String
  browser : JVal
  browser_version : JVal
  os : JVal
  os_version : JVal
  device_type : JVal
  device_vendor : JVal
  device_model : JVal
  screen_width : JVal
  screen_height : JVal
  screen_resolution : JVal
  color_depth : JVal
  pixel_ratio : JVal
  language : JVal
  languages : JVal
  timezone : JVal
  timezone_offset : JVal
  platform : JVal
  cookie_enabled : JVal
  online_status : JVal
  connection_type : JVal
  battery_level : JVal
  battery_charging : JVal
  referrer : String
  touch_support : JVal
  cores : JVal
  memory : JVal
deriving DecidableEq, Repr

/-- One stored location record (`location_data`, lines 102-144). -/
structure LocationRecord where
  id : String
  timestamp : String
  latitude : JVal
  longitude : JVal
  accuracy : JVal
  altitude : JVal
  altitude_accuracy : JVal
  heading : JVal
  speed : JVal
  device_info : DeviceInfo
  session_id : JVal
  is_live : JVal
deriving DecidableEq, Repr

/-- One session summary (`session_info`, lines 150-157). -/
structure SessionInfo where
  session_id : JVal
  first_seen : JVal
  last_seen : String
  location_count : Nat
  device_info : DeviceInfo
  is_live_tracking : JVal
deriving DecidableEq, Repr

/-- The sessions file: a JSON object keyed by the resolved session id. -/
abbrev Sessions := List (JVal × SessionInfo)

/-- The persisted state: the locations file and the sessions file. -/
structure ServerState where
  locations : List LocationRecord
  sessions : Sessions
deriving DecidableEq, Repr

/-- Per-request header data used by the ingest handler. -/
structure ReqCtx where
  user_agent : Option String
  remote_addr : Option String
  referer : Option String
deriving DecidableEq, Repr

/-- Server-side nondeterminism consumed by one ingest: the record uuid, the
three `datetime.now()` readings and the fallback session uuid. -/
structure ServerEnv where
  record_id : String
  now : String
  fresh_sid : String
  now_first : String
  now_last : String
deriving DecidableEq, Repr

/-- The body of an HTTP response, one constructor per JSON body shape the
service produces. -/
inductive Body where
  | adminPage (locations : List LocationRecord) (sessions : Sessions)
  | ingestOk (message : String) (session_id : JVal) (data : LocationRecord)
  | errorMsg (message : String)
  | locationsList (count : Nat) (locations : List LocationRecord)
  | sessionsMap (count : Nat) (sessions : Sessions)
  | latestLoc (location : LocationRecord)
  | statsBody (total_locations total_sessions unique_ips active_sessions : Nat)
      (latest_timestamp : Option String)
  | accessDenied (error message : String)
deriving DecidableEq, Repr

/-- An HTTP response: status code and JSON body. -/
structure Response where
  status : Nat
  body : Body
deriving DecidableEq, Repr

/-! ### Storage helpers (lines 29-69) -/

/-- How a read of one of the JSON files went (`load_locations` /
`load_sessions` observe only these four outcomes). -/
inductive FileRead (α : Type) where
  | absent : FileRead α
  | readError : FileRead α
  | parseError : FileRead α
  | parsed : α → FileRead α

/-- `load_locations` (lines 29-37): the parsed list when the file exists and
parses, `[]` when it is absent or the open/parse raised. -/
def load_locations : FileRead (List LocationRecord) → List LocationRecord
  | .parsed v => v
  | _ => []

/-- `load_sessions` (lines 53-61): the parsed map when the file exists and
parses, the empty map otherwise. -/
def load_sessions : FileRead Sessions → Sessions
  | .parsed v => v
  | _ => []

/-- `save_location` (lines 39-51) on the already-loaded list: append, then
keep only the last 500 (`locations[-500:]`) when the bound is exceeded. -/
def save_location (locations : List LocationRecord) (data : LocationRecord) :
    List LocationRecord :=
  let l := locations ++ [data]
  if 500 < l.length then l.drop (l.length - 500) else l

/-- `save_session` (lines 63-69) on the already-loaded map:
`sessions[session_id] = data`, i.e. replace the entry when the key is
present, append a new entry otherwise. -/
def save_session (sessions : Sessions) (session_id : JVal) (data : SessionInfo) :
    Sessions :=
  if sessions.any (fun e => e.1 == session_id) then
    sessions.map (fun e => if e.1 == session_id then (e.1, data) else e)
  else
    sessions ++ [(session_id, data)]

/-! ### Access gate (lines 71-75) and the 403 handler (lines 301-307) -/

/-- `is_localhost` (lines 71-75): the remote address is one of the three
fixed loopback spellings.  `remote_addr` can be `None` in Flask, which is
not in the list. -/
def is_localhost (remote_addr : Option String) : Bool :=
  match remote_addr with
  | some a => ["127.0.0.1", "localhost", "::1"].contains a
  | none => false

/-- The fixed response produced by `abort(403)` through the `forbidden`
error handler (lines 301-307). -/
def forbidden : Response :=
  ⟨403, .accessDenied "Access Denied" "This resource is only accessible from localhost"⟩

/-! ### Ingest (lines 92-197) -/

/-- Line 99: `data.get('session_id') or str(uuid.uuid4())` — the client value
when truthy, a fresh uuid otherwise. -/
def resolveSession (p : Payload) (fresh : String) : JVal :=
  let v := p.pget "session_id"
  if v.truthy then v else .str fresh

/-- Lines 112-141: the `device_info` blob. -/
def buildDeviceInfo (ctx : ReqCtx) (p : Payload) : DeviceInfo where
  user_agent := ctx.user_agent
  ip_address := ctx.remote_addr
  browser := p.pget "browser"
  browser_version := p.pget "browser_version"
  os := p.pget "os"
  os_version := p.pget "os_version"
  device_type := p.pget "device_type"
  device_vendor := p.pget "device_vendor"
  device_model := p.pget "device_model"
  screen_width := p.pget "screen_width"
  screen_height := p.pget "screen_height"
  screen_resolution := p.pget "screen_resolution"
  color_depth := p.pget "color_depth"
  pixel_ratio := p.pget "pixel_ratio"
  language := p.pget "language"
  languages := p.pget "languages"
  timezone := p.pget "timezone"
  timezone_offset := p.pget "timezone_offset"
  platform := p.pget "platform"
  cookie_enabled := p.pget "cookie_enabled"
  online_status := p.pget "online_status"
  connection_type := p.pget "connection_type"
  battery_level := p.pget "battery_level"
  battery_charging := p.pget "battery_charging"
  referrer := ctx.referer.getD "Direct"
  touch_support := p.pget "touch_support"
  cores := p.pget "cores"
  memory := p.pget "memory"

/-- Lines 102-144: the full `location_data` record. -/
def buildRecord (env : ServerEnv) (ctx : ReqCtx) (p : Payload) : LocationRecord where
  id := env.record_id
  timestamp := env.now
  latitude := p.pget "latitude"
  longitude := p.pget "longitude"
  accuracy := p.pget "accuracy"
  altitude := p.pget "altitude"
  altitude_accuracy := p.pget "altitudeAccuracy"
  heading := p.pget "heading"
  speed := p.pget "speed"
  device_info := buildDeviceInfo ctx p
  session_id := resolveSession p env.fresh_sid
  is_live := p.pgetD "is_live" (.bool false)

/-- Whether a value survives Python's `f"{v:.6f}"` (line 173): numbers do,
booleans do (they are ints), `None` and strings raise. -/
def fmtFixedOk : JVal → Bool
  | .num _ => true
  | .bool _ => true
  | _ => false

/-- The console-logging block (lines 167-183), which runs inside the
handler's `try`: slicing `session_id[:8]` (line 171) raises on a
non-string, and formatting latitude then longitude with `:.6f` (line 173)
raises on null or a string.  Returns the exception text when it raises. -/
def logStep (rec : LocationRecord) : Except String Unit :=
  match rec.session_id with
  | .str _ =>
    if fmtFixedOk rec.latitude then
      if fmtFixedOk rec.longitude then .ok ()
      else .error "unsupported format string passed to NoneType.__format__"
    else .error "unsupported format string passed to NoneType.__format__"
  | _ => .error "TypeError: object is not subscriptable"

/-- Lines 150-157: the `session_info` dict.  `locations'` is the list read
back from the just-written file (line 154), i.e. the post-append store. -/
def build_session_info (env : ServerEnv) (p : Payload) (session_id : JVal)
    (device_info : DeviceInfo) (locations' : List LocationRecord) : SessionInfo where
  session_id := session_id
  first_seen := p.pgetD "first_seen" (.str env.now_first)
  last_seen := env.now_last
  location_count :=
    (locations'.filter (fun loc => loc.session_id == session_id)).length
  device_info := device_info
  is_live_tracking := p.pgetD "is_live" (.bool false)

/-- `receive_location` (lines 92-197).  `body` is `.error msg` when
`request.get_json()` raised or the parsed value was not an object (so
`data.get` raised) — both happen before any write.  On a parsed object the
handler builds the record, persists it, recomputes and persists the session
summary, broadcasts (no observable effect here), then logs; a raise in the
logging block is caught by the same `except` and produces the 400 response,
after the writes. -/
def receive_location (env : ServerEnv) (ctx : ReqCtx) (st : ServerState)
    (body : Except String Payload) : Response × ServerState :=
  match body with
  | .error msg => (⟨400, .errorMsg msg⟩, st)
  | .ok p =>
    let session_id := resolveSession p env.fresh_sid
    let location_data := buildRecord env ctx p
    let locations' := save_location st.locations location_data
    let session_info :=
      build_session_info env p session_id location_data.device_info locations'
    let sessions' := save_session st.sessions session_id session_info
    let st' : ServerState := ⟨locations', sessions'⟩
    match logStep location_data with
    | .ok _ =>
      (⟨200, .ingestOk "Location tracked successfully" session_id location_data⟩, st')
    | .error msg => (⟨400, .errorMsg msg⟩, st')

/-! ### Read endpoints (lines 82-90, 199-275) -/

/-- `admin` (lines 82-90): render the dashboard for loopback callers. -/
def admin (remote_addr : Option String) (st : ServerState) : Response :=
  if is_localhost remote_addr then ⟨200, .adminPage st.locations st.sessions⟩
  else forbidden

/-- `get_locations` (lines 199-215): all records, filtered to one session
when the `session_id` query parameter is truthy (a present empty string is
falsy in Python, so it does not filter). -/
def get_locations (remote_addr : Option String) (st : ServerState)
    (session_id : Option String) : Response :=
  if is_localhost remote_addr then
    let locations := st.locations
    let locations :=
      match session_id with
      | some s =>
        if s ≠ "" then locations.filter (fun loc => loc.session_id == JVal.str s)
        else locations
      | none => locations
    ⟨200, .locationsList locations.length locations⟩
  else forbidden

/-- `get_sessions` (lines 217-228). -/
def get_sessions (remote_addr : Option String) (st : ServerState) : Response :=
  if is_localhost remote_addr then ⟨200, .sessionsMap st.sessions.length st.sessions⟩
  else forbidden

/-- `get_latest` (lines 230-245): the last stored record, or 404 when the
store is empty. -/
def get_latest (remote_addr : Option String) (st : ServerState) : Response :=
  if is_localhost remote_addr then
    match st.locations.getLast? with
    | some loc => ⟨200, .latestLoc loc⟩
    | none => ⟨404, .errorMsg "No locations found"⟩
  else forbidden

/-- The generator condition on line 265: a record contributes its
`ip_address` when that value is truthy (present and non-empty). -/
def pickIp (loc : LocationRecord) : Option String :=
  match loc.device_info.ip_address with
  | some ip => if ip ≠ "" then some ip else none
  | none => none

/-- Line 265: the distinct truthy `ip_address` values over the stored
records (Python's `set(...)`, whose cardinality is the deduplicated
length). -/
def uniqueIpsList (locations : List LocationRecord) : List String :=
  (locations.filterMap pickIp).dedup

/-- `get_stats` (lines 247-275): all-zero body on an empty store, otherwise
counts recomputed from the two files.  `total_sessions` is the size of the
sessions map; `active_sessions` counts entries with a truthy
`is_live_tracking`. -/
def get_stats (remote_addr : Option String) (st : ServerState) : Response :=
  if is_localhost remote_addr then
    match st.locations.getLast? with
    | none => ⟨200, .statsBody 0 0 0 0 none⟩
    | some last =>
      ⟨200, .statsBody st.locations.length st.sessions.length
        (uniqueIpsList st.locations).length
        (st.sessions.filter (fun e => e.2.is_live_tracking.truthy)).length
        (some last.timestamp)⟩
  else forbidden

/-! ### Sample data used by witnesses and counterexamples -/

/-- A record built by the ingest path from an empty payload: id `i`, fresh
session id `s`, every client field null. -/
def mkRec (i s : String) : LocationRecord :=
  buildRecord ⟨i, "2024-01-01T00:00:00", s, "tf", "tl"⟩ ⟨none, none, none⟩ []

/-- A minimal session summary used as concrete data. -/
def mkInfo (s : String) : SessionInfo where
  session_id := .str s
  first_seen := .null
  last_seen := "2024-01-01T00:00:00"
  location_count := 0
  device_info := buildDeviceInfo ⟨none, none, none⟩ []
  is_live_tracking := .bool false

/-- A concrete server environment for one ingest. -/
def env0 : ServerEnv :=
  ⟨"rec-1", "2024-01-01T00:00:01", "fresh-1", "2024-01-01T00:00:02",
   "2024-01-01T00:00:03"⟩

/-- A concrete request context: an external caller. -/
def ctx0 : ReqCtx := ⟨some "UA", some "203.0.113.7", none⟩

/-- The payload keys the ingest handler copies into the record verbatim via
`data.get`, each paired with the record field it lands in (lines 105-111 and
115-140; note `altitudeAccuracy` lands in `altitude_accuracy`). -/
def payloadFieldTable : List (String × (LocationRecord → JVal)) :=
  [("latitude", fun r => r.latitude),
   ("longitude", fun r => r.longitude),
   ("accuracy", fun r => r.accuracy),
   ("altitude", fun r => r.altitude),
   ("altitudeAccuracy", fun r => r.altitude_accuracy),
   ("heading", fun r => r.heading),
   ("speed", fun r => r.speed),
   ("browser", fun r => r.device_info.browser),
   ("browser_version", fun r => r.device_info.browser_version),
   ("os", fun r => r.device_info.os),
   ("os_version", fun r => r.device_info.os_version),
   ("device_type", fun r => r.device_info.device_type),
   ("device_vendor", fun r => r.device_info.device_vendor),
   ("device_model", fun r => r.device_info.device_model),
   ("screen_width", fun r => r.device_info.screen_width),
   ("screen_height", fun r => r.device_info.screen_height),
   ("screen_resolution", fun r => r.device_info.screen_resolution),
   ("color_depth", fun r => r.device_info.color_depth),
   ("pixel_ratio", fun r => r.device_info.pixel_ratio),
   ("language", fun r => r.device_info.language),
   ("languages", fun r => r.device_info.languages),
   ("timezone", fun r => r.device_info.timezone),
   ("timezone_offset", fun r => r.device_info.timezone_offset),
   ("platform", fun r => r.device_info.platform),
   ("cookie_enabled", fun r => r.device_info.cookie_enabled),
   ("online_status", fun r => r.device_info.online_status),
   ("connection_type", fun r => r.device_info.connection_type),
   ("battery_level", fun r => r.device_info.battery_level),
   ("battery_charging", fun r => r.device_info.battery_charging),
   ("touch_support", fun r => r.device_info.touch_support),
   ("cores", fun r => r.device_info.cores),
   ("memory", fun r => r.device_info.memory)]

/-- A concrete payload exercising present and absent fields. -/
def p0 : Payload :=
  [("latitude", .num 37), ("session_id", .str "s1"), ("is_live", .bool true)]

/-- A payload whose `session_id` is a truthy non-string (line 99 keeps it). -/
def p1 : Payload := [("session_id", .num 5)]

/-- A payload whose `session_id` is an explicit null (falsy, so replaced). -/
def p2 : Payload := [("session_id", .null)]

/-! ### Helper lemmas about `save_location` -/

lemma save_location_length_le (locs : List LocationRecord) (d : LocationRecord) :
    (save_location locs d).length ≤ 500 := by
  simp only [save_location]
  split
  · simp only [List.length_drop]
    omega
  · omega

lemma foldl_save_location_length (ds : List LocationRecord) :
    ∀ locs : List LocationRecord, locs.length ≤ 500 →
      (ds.foldl save_location locs).length ≤ 500 := by
  induction ds with
  | nil => intro locs h; simpa using h
  | cons d ds ih => intro locs _; exact ih _ (save_location_length_le locs d)

lemma save_location_last (locs : List LocationRecord) (d : LocationRecord) :
    (save_location locs d).getLast? = some d := by
  simp only [save_location]
  split
  next h =>
    rw [List.drop_append_of_le_length
      (by simp only [List.length_append, List.length_cons, List.length_nil] at h ⊢; omega)]
    exact List.getLast?_concat _
  next h => exact List.getLast?_concat _

lemma save_location_evicts_head (x : LocationRecord) (rest : List LocationRecord)
    (d : LocationRecord) (hlen : 499 ≤ rest.length) (hx : x ∉ rest) (hxd : x ≠ d) :
    x ∉ save_location (x :: rest) d := by
  intro hmem
  simp only [save_location] at hmem
  rw [if_pos (by simp; omega)] at hmem
  have hcons : (x :: rest) ++ [d] = x :: (rest ++ [d]) := rfl
  rw [hcons] at hmem
  obtain ⟨m, hm⟩ : ∃ m, (x :: (rest ++ [d])).length - 500 = m + 1 :=
    ⟨(x :: (rest ++ [d])).length - 501, by simp; omega⟩
  rw [hm, List.drop_succ_cons] at hmem
  have : x ∈ rest ++ [d] := List.drop_subset m _ hmem
  rcases List.mem_append.mp this with h | h
  · exact hx h
  · exact hxd (by simpa using h)

/-! ### Helper lemmas about `save_session` -/

lemma lookup_map_set_self (m : Sessions) (k : JVal) (v : SessionInfo)
    (hany : m.any (fun e => e.1 == k) = true) :
    (m.map (fun e => if e.1 == k then (e.1, v) else e)).lookup k = some v := by
  induction m with
  | nil => simp at hany
  | cons a t ih =>
    obtain ⟨ak, av⟩ := a
    by_cases hk : ak = k
    · subst hk
      rw [List.map_cons,
        show (if ((ak, av).1 == ak) then ((ak, av).1, v) else (ak, av)) = (ak, v) by
          simp]
      simp [List.lookup]
    · have hb : (ak == k) = false := beq_eq_false_iff_ne.mpr hk
      have hb' : (k == ak) = false := beq_eq_false_iff_ne.mpr (Ne.symm hk)
      simp only [List.any_cons, hb, Bool.false_or] at hany
      rw [List.map_cons,
        show (if ((ak, av).1 == k) then ((ak, av).1, v) else (ak, av)) = (ak, av) by
          simp [hb]]
      simp only [List.lookup, hb']
      exact ih hany

lemma lookup_map_set_other (m : Sessions) (k : JVal) (v : SessionInfo)
    (q : JVal) (hq : q ≠ k) :
    (m.map (fun e => if e.1 == k then (e.1, v) else e)).lookup q = m.lookup q := by
  induction m with
  | nil => simp
  | cons a t ih =>
    obtain ⟨ak, av⟩ := a
    by_cases hk : ak = k
    · subst hk
      have hb : (q == ak) = false := beq_eq_false_iff_ne.mpr hq
      rw [List.map_cons,
        show (if ((ak, av).1 == ak) then ((ak, av).1, v) else (ak, av)) = (ak, v) by
          simp]
      simp only [List.lookup, hb]
      exact ih
    · have hb : (ak == k) = false := beq_eq_false_iff_ne.mpr hk
      rw [List.map_cons,
        show (if ((ak, av).1 == k) then ((ak, av).1, v) else (ak, av)) = (ak, av) by
          simp [hb]]
      by_cases hqa : q = ak
      · subst hqa
        simp [List.lookup]
      · have hb' : (q == ak) = false := beq_eq_false_iff_ne.mpr hqa
        simp only [List.lookup, hb']
        exact ih

lemma lookup_append_single_self (m : Sessions) (k : JVal) (v : SessionInfo)
    (hany : m.any (fun e => e.1 == k) = false) :
    (m ++ [(k, v)]).lookup k = some v := by
  induction m with
  | nil => simp [List.lookup]
  | cons a t ih =>
    obtain ⟨ak, av⟩ := a
    simp only [List.any_cons, Bool.or_eq_false_iff] at hany
    have hb : (k == ak) = false := by
      rcases eq_or_ne k ak with h | h
      · subst h
        simp at hany
      · exact beq_eq_false_iff_ne.mpr h
    rw [List.cons_append]
    simp only [List.lookup, hb]
    exact ih hany.2

lemma lookup_append_single_other (m : Sessions) (k : JVal) (v : SessionInfo)
    (q : JVal) (hq : q ≠ k) :
    (m ++ [(k, v)]).lookup q = m.lookup q := by
  induction m with
  | nil => simp [List.lookup, beq_eq_false_iff_ne.mpr hq]
  | cons a t ih =>
    obtain ⟨ak, av⟩ := a
    rw [List.cons_append]
    by_cases hqa : q = ak
    · subst hqa
      simp [List.lookup]
    · have hb : (q == ak) = false := beq_eq_false_iff_ne.mpr hqa
      simp only [List.lookup, hb]
      exact ih

lemma save_session_lookup_self (m : Sessions) (k : JVal) (v : SessionInfo) :
    (save_session m k v).lookup k = some v := by
  simp only [save_session]
  split
  next hany => exact lookup_map_set_self m k v hany
  next hany => exact lookup_append_single_self m k v (Bool.eq_false_iff.mpr hany)

lemma save_session_lookup_other (m : Sessions) (k : JVal) (v : SessionInfo)
    (q : JVal) (hq : q ≠ k) :
    (save_session m k v).lookup q = m.lookup q := by
  simp only [save_session]
  split
  next => exact lookup_map_set_other m k v q hq
  next => exact lookup_append_single_other m k v q hq

/-! ### Helper lemmas about `receive_location` and the gate -/

lemma receive_location_ok_state (env : ServerEnv) (ctx : ReqCtx) (st : ServerState)
    (p : Payload) :
    (receive_location env ctx st (.ok p)).2 =
      ⟨save_location st.locations (buildRecord env ctx p),
       save_session st.sessions (resolveSession p env.fresh_sid)
         (build_session_info env p (resolveSession p env.fresh_sid)
           (buildRecord env ctx p).device_info
           (save_location st.locations (buildRecord env ctx p)))⟩ := by
  simp only [receive_location]
  cases hlog : logStep (buildRecord env ctx p) <;> simp [hlog]

lemma is_localhost_false_of_not_mem (remote_addr : Option String)
    (h : ∀ s, remote_addr = some s →
      s ∉ (["127.0.0.1", "localhost", "::1"] : List String)) :
    is_localhost remote_addr = false := by
  cases remote_addr with
  | none => rfl
  | some a =>
    have ha := h a rfl
    simp [is_localhost, ha]

/-! ### Claim theorems -/

/-- C1: the stored list never exceeds 500 records after any append (and so
after any sequence of appends starting from the empty store); after every
append the newest record is the last element; and once the bound is
exceeded the oldest previously stored record is evicted (FIFO), stated for
a store whose head is not duplicated further down and differs from the
appended record. -/
theorem save_location_capacity_fifo :
    (∀ locs d, (save_location locs d).length ≤ 500)
    ∧ (∀ ds : List LocationRecord, (ds.foldl save_location []).length ≤ 500)
    ∧ (∀ locs d, (save_location locs d).getLast? = some d)
    ∧ (∀ x rest d, 499 ≤ rest.length → x ∉ rest → x ≠ d →
        x ∉ save_location (x :: rest) d) := by
  refine ⟨save_location_length_le, ?_, save_location_last, save_location_evicts_head⟩
  intro ds
  exact foldl_save_location_length ds [] (by simp)

/-- Witness for C1: a store holding 501 records (head `mkRec "a" "sa"`
followed by 500 copies of `mkRec "b" "sb"`) evicts its head on the next
append. -/
theorem save_location_capacity_fifo_witness :
    499 ≤ (List.replicate 500 (mkRec "b" "sb")).length
    ∧ mkRec "a" "sa" ∉ List.replicate 500 (mkRec "b" "sb")
    ∧ mkRec "a" "sa" ≠ mkRec "c" "sc"
    ∧ mkRec "a" "sa" ∉
        save_location (mkRec "a" "sa" :: List.replicate 500 (mkRec "b" "sb"))
          (mkRec "c" "sc") := by
  have h1 : 499 ≤ (List.replicate 500 (mkRec "b" "sb")).length := by
    simp only [List.length_replicate]
    omega
  have hab : mkRec "a" "sa" ≠ mkRec "b" "sb" := fun h => by
    have hid : (mkRec "a" "sa").id = (mkRec "b" "sb").id := congrArg LocationRecord.id h
    simp [mkRec, buildRecord] at hid
  have h2 : mkRec "a" "sa" ∉ List.replicate 500 (mkRec "b" "sb") := by
    simp only [List.mem_replicate]
    exact fun hc => hab hc.2
  have h3 : mkRec "a" "sa" ≠ mkRec "c" "sc" := fun h => by
    have hid : (mkRec "a" "sa").id = (mkRec "c" "sc").id := congrArg LocationRecord.id h
    simp [mkRec, buildRecord] at hid
  exact ⟨h1, h2, h3, save_location_capacity_fifo.2.2.2 _ _ _ h1 h2 h3⟩

/-- C10: upserting a summary with `save_session` sets exactly the entry for
that session id and leaves the entry of every other session id in the
persisted map unchanged. -/
theorem save_session_frame :
    ∀ (m : Sessions) (k : JVal) (v : SessionInfo),
      (save_session m k v).lookup k = some v
      ∧ ∀ q, q ≠ k → (save_session m k v).lookup q = m.lookup q :=
  fun m k v =>
    ⟨save_session_lookup_self m k v,
     fun q hq => save_session_lookup_other m k v q hq⟩

/-- Witness for C10: overwriting session `"a"` in a two-entry map leaves the
entry for session `"b"` unchanged. -/
theorem save_session_frame_witness :
    ((save_session [(JVal.str "a", mkInfo "a"), (JVal.str "b", mkInfo "b")]
        (JVal.str "a") (mkInfo "c")).lookup (JVal.str "a") = some (mkInfo "c"))
    ∧ JVal.str "b" ≠ JVal.str "a"
    ∧ ((save_session [(JVal.str "a", mkInfo "a"), (JVal.str "b", mkInfo "b")]
        (JVal.str "a") (mkInfo "c")).lookup (JVal.str "b")
      = ([(JVal.str "a", mkInfo "a"), (JVal.str "b", mkInfo "b")] :
          Sessions).lookup (JVal.str "b")) := by
  have h := save_session_frame
    [(JVal.str "a", mkInfo "a"), (JVal.str "b", mkInfo "b")] (JVal.str "a") (mkInfo "c")
  have hq : JVal.str "b" ≠ JVal.str "a" := by decide
  exact ⟨h.1, hq, h.2 _ hq⟩

/-- C4: a caller whose address is not one of the three fixed loopback
spellings receives, on every restricted endpoint, status 403 with the one
fixed error body, whatever the store contents and query parameter; the
response does not depend on the store at all. -/
theorem restricted_endpoints_forbidden :
    ∀ remote_addr : Option String,
      (∀ s, remote_addr = some s →
        s ∉ (["127.0.0.1", "localhost", "::1"] : List String)) →
      ∀ (st : ServerState) (q : Option String),
        admin remote_addr st = forbidden
        ∧ get_locations remote_addr st q = forbidden
        ∧ get_sessions remote_addr st = forbidden
        ∧ get_latest remote_addr st = forbidden
        ∧ get_stats remote_addr st = forbidden := by
  intro remote_addr h st q
  have hl : is_localhost remote_addr = false := is_localhost_false_of_not_mem _ h
  refine ⟨?_, ?_, ?_, ?_, ?_⟩ <;>
    simp [admin, get_locations, get_sessions, get_latest, get_stats, hl]

/-- Witness for C4: the external address `203.0.113.7` is rejected on all
five restricted endpoints over a concrete store. -/
theorem restricted_endpoints_forbidden_witness :
    admin (some "203.0.113.7") ⟨[mkRec "a" "sa"], []⟩ = forbidden
    ∧ get_locations (some "203.0.113.7") ⟨[mkRec "a" "sa"], []⟩ none = forbidden
    ∧ get_sessions (some "203.0.113.7") ⟨[mkRec "a" "sa"], []⟩ = forbidden
    ∧ get_latest (some "203.0.113.7") ⟨[mkRec "a" "sa"], []⟩ = forbidden
    ∧ get_stats (some "203.0.113.7") ⟨[mkRec "a" "sa"], []⟩ = forbidden := by
  have h : ∀ s, (some "203.0.113.7" : Option String) = some s →
      s ∉ (["127.0.0.1", "localhost", "::1"] : List String) := by
    intro s hs
    cases hs
    decide
  exact restricted_endpoints_forbidden _ h ⟨[mkRec "a" "sa"], []⟩ none

/-- C8: the loaders return the parsed contents when the file exists and
parses, and the empty list (resp. empty map) when the file is absent, the
read raised, or the parse raised; no error is surfaced. -/
theorem load_swallows_errors :
    (∀ l : List LocationRecord, load_locations (.parsed l) = l)
    ∧ load_locations .absent = []
    ∧ load_locations .readError = []
    ∧ load_locations .parseError = []
    ∧ (∀ m : Sessions, load_sessions (.parsed m) = m)
    ∧ load_sessions .absent = []
    ∧ load_sessions .readError = []
    ∧ load_sessions .parseError = [] :=
  ⟨fun _ => rfl, rfl, rfl, rfl, fun _ => rfl, rfl, rfl, rfl⟩

/-- C6: for a loopback caller, the latest endpoint returns 404 on an empty
store, returns the last stored record otherwise, and after a single ingest
into an empty store it returns exactly the record that ingest built and
stored. -/
theorem get_latest_spec :
    (∀ remote_addr st, is_localhost remote_addr = true → st.locations = [] →
      get_latest remote_addr st = ⟨404, .errorMsg "No locations found"⟩)
    ∧ (∀ remote_addr st (l : List LocationRecord) (r : LocationRecord),
        is_localhost remote_addr = true → st.locations = l ++ [r] →
        get_latest remote_addr st = ⟨200, .latestLoc r⟩)
    ∧ (∀ remote_addr env ctx (p : Payload), is_localhost remote_addr = true →
        get_latest remote_addr (receive_location env ctx ⟨[], []⟩ (.ok p)).2
          = ⟨200, .latestLoc (buildRecord env ctx p)⟩) := by
  refine ⟨?_, ?_, ?_⟩
  · intro remote_addr st hl hempty
    simp [get_latest, hl, hempty]
  · intro remote_addr st l r hl hst
    simp [get_latest, hl, hst, List.getLast?_concat]
  · intro remote_addr env ctx p hl
    rw [receive_location_ok_state]
    have hsave : save_location [] (buildRecord env ctx p) = [buildRecord env ctx p] := by
      simp [save_location]
    simp [get_latest, hl, hsave]

/-- Witness for C6: latest on the empty store 404s; after one ingest of the
empty payload into the empty store, latest returns the built record. -/
theorem get_latest_spec_witness :
    is_localhost (some "127.0.0.1") = true
    ∧ get_latest (some "127.0.0.1") ⟨[], []⟩ = ⟨404, .errorMsg "No locations found"⟩
    ∧ get_latest (some "127.0.0.1") (receive_location env0 ctx0 ⟨[], []⟩ (.ok [])).2
        = ⟨200, .latestLoc (buildRecord env0 ctx0 [])⟩ := by
  have hl : is_localhost (some "127.0.0.1") = true := rfl
  exact ⟨hl, get_latest_spec.1 _ ⟨[], []⟩ hl rfl, get_latest_spec.2.2 _ env0 ctx0 [] hl⟩

/-- C5 counterexample: the claim "for every session_id filter value the list
endpoint returns exactly the records whose session_id equals the filter"
fails at the empty-string filter: a present-but-empty `session_id` query
parameter is falsy in Python, so no filter is applied and a record whose
session id differs from the filter is still returned. -/
theorem get_locations_filter_counterexample :
    get_locations (some "127.0.0.1") ⟨[mkRec "a" "sa"], []⟩ (some "")
      = ⟨200, .locationsList 1 [mkRec "a" "sa"]⟩
    ∧ (mkRec "a" "sa").session_id ≠ JVal.str "" := by
  constructor
  · rfl
  · simp [mkRec, buildRecord, resolveSession, Payload.pget, JVal.truthy]

/-- C5 (amended): for a loopback caller, a non-empty filter value returns
exactly the records whose session_id equals the filter, in original order,
with the count equal to the returned length; an absent or empty filter
returns all stored records. -/
theorem get_locations_filter_amended :
    (∀ remote_addr st s, is_localhost remote_addr = true → s ≠ "" →
      get_locations remote_addr st (some s)
        = ⟨200, .locationsList
            (st.locations.filter (fun loc => loc.session_id == JVal.str s)).length
            (st.locations.filter (fun loc => loc.session_id == JVal.str s))⟩)
    ∧ (∀ remote_addr st, is_localhost remote_addr = true →
        get_locations remote_addr st none
          = ⟨200, .locationsList st.locations.length st.locations⟩)
    ∧ (∀ remote_addr st, is_localhost remote_addr = true →
        get_locations remote_addr st (some "")
          = ⟨200, .locationsList st.locations.length st.locations⟩) := by
  refine ⟨?_, ?_, ?_⟩
  · intro remote_addr st s hl hs
    simp [get_locations, hl, hs]
  · intro remote_addr st hl
    simp [get_locations, hl]
  · intro remote_addr st hl
    simp [get_locations, hl]

/-- Witness for C5 (amended): filtering a two-record store by session
`"sa"` keeps exactly the matching record. -/
theorem get_locations_filter_amended_witness :
    is_localhost (some "127.0.0.1") = true
    ∧ ("sa" : String) ≠ ""
    ∧ get_locations (some "127.0.0.1") ⟨[mkRec "a" "sa", mkRec "b" "sb"], []⟩ (some "sa")
        = ⟨200, .locationsList
            (([mkRec "a" "sa", mkRec "b" "sb"].filter
              (fun loc => loc.session_id == JVal.str "sa"))).length
            ([mkRec "a" "sa", mkRec "b" "sb"].filter
              (fun loc => loc.session_id == JVal.str "sa"))⟩ := by
  have hl : is_localhost (some "127.0.0.1") = true := rfl
  have hs : ("sa" : String) ≠ "" := by decide
  exact ⟨hl, hs,
    get_locations_filter_amended.1 _ ⟨[mkRec "a" "sa", mkRec "b" "sb"], []⟩ "sa" hl hs⟩

/-- C7 counterexample: the claim says the stats session count equals the
number of distinct session ids over the stored records.  With one stored
record (one distinct session id) and a two-entry sessions map, the endpoint
reports 2, because the code uses `len(sessions)` — the size of the sessions
map — not a scan of the stored records. -/
theorem get_stats_counterexample :
    get_stats (some "127.0.0.1")
        ⟨[mkRec "a" "sa"], [(JVal.str "sa", mkInfo "sa"), (JVal.str "x", mkInfo "x")]⟩
      = ⟨200, .statsBody 1 2 0 0 (some "2024-01-01T00:00:00")⟩
    ∧ (([mkRec "a" "sa"].map (fun loc => loc.session_id)).toFinset.card = 1)
    ∧ (2 : Nat) ≠ 1 := by
  refine ⟨rfl, ?_, by decide⟩
  simp

/-- C7 (amended): for a loopback caller on a non-empty store, the unique-IP
count equals the cardinality of the set of distinct truthy IP addresses
over the stored records (recomputed per call), while the reported session
count is the number of entries in the sessions map; on an empty store every
count is reported as zero. -/
theorem get_stats_amended :
    (∀ remote_addr st, is_localhost remote_addr = true → st.locations = [] →
      get_stats remote_addr st = ⟨200, .statsBody 0 0 0 0 none⟩)
    ∧ (∀ remote_addr st (l : List LocationRecord) (r : LocationRecord),
        is_localhost remote_addr = true → st.locations = l ++ [r] →
        get_stats remote_addr st
          = ⟨200, .statsBody st.locations.length st.sessions.length
              (st.locations.filterMap pickIp).toFinset.card
              (st.sessions.filter (fun e => e.2.is_live_tracking.truthy)).length
              (some r.timestamp)⟩) := by
  constructor
  · intro remote_addr st hl hempty
    simp [get_stats, hl, hempty]
  · intro remote_addr st l r hl hst
    have hlast : st.locations.getLast? = some r := by
      rw [hst]
      exact List.getLast?_concat _
    simp [get_stats, hl, hlast, uniqueIpsList, List.card_toFinset]

/-- Witness for C7 (amended): a store with two records sharing one truthy
IP address and one unrelated sessions entry reports one unique IP and the
map size as the session count. -/
theorem get_stats_amended_witness :
    is_localhost (some "127.0.0.1") = true
    ∧ (⟨[mkRec "a" "sa", mkRec "b" "sb"], [(JVal.str "x", mkInfo "x")]⟩ :
        ServerState).locations = [mkRec "a" "sa"] ++ [mkRec "b" "sb"]
    ∧ get_stats (some "127.0.0.1")
        ⟨[mkRec "a" "sa", mkRec "b" "sb"], [(JVal.str "x", mkInfo "x")]⟩
        = ⟨200, .statsBody
            ([mkRec "a" "sa", mkRec "b" "sb"] : List LocationRecord).length
            ([(JVal.str "x", mkInfo "x")] : Sessions).length
            (([mkRec "a" "sa", mkRec "b" "sb"] : List LocationRecord).filterMap
              pickIp).toFinset.card
            (([(JVal.str "x", mkInfo "x")] : Sessions).filter
              (fun e => e.2.is_live_tracking.truthy)).length
            (some (mkRec "b" "sb").timestamp)⟩ := by
  have hl : is_localhost (some "127.0.0.1") = true := rfl
  have hst : (⟨[mkRec "a" "sa", mkRec "b" "sb"], [(JVal.str "x", mkInfo "x")]⟩ :
      ServerState).locations = [mkRec "a" "sa"] ++ [mkRec "b" "sb"] := rfl
  exact ⟨hl, hst,
    get_stats_amended.2 _ ⟨[mkRec "a" "sa", mkRec "b" "sb"], [(JVal.str "x", mkInfo "x")]⟩
      [mkRec "a" "sa"] (mkRec "b" "sb") hl hst⟩

/-- C9: on every ingest the summary upserted for the resolved session id
has a record count equal to the number of records in the post-append (and
possibly truncated) stored list whose session id equals the resolved id. -/
theorem session_count_recomputed :
    ∀ (env : ServerEnv) (ctx : ReqCtx) (st : ServerState) (p : Payload),
      ∃ info : SessionInfo,
        ((receive_location env ctx st (.ok p)).2.sessions).lookup
            (resolveSession p env.fresh_sid) = some info
        ∧ info.location_count =
            (((receive_location env ctx st (.ok p)).2.locations).filter
              (fun loc => loc.session_id == resolveSession p env.fresh_sid)).length := by
  intro env ctx st p
  refine ⟨build_session_info env p (resolveSession p env.fresh_sid)
    (buildRecord env ctx p).device_info
    (save_location st.locations (buildRecord env ctx p)), ?_, ?_⟩
  · rw [receive_location_ok_state]
    exact save_session_lookup_self _ _ _
  · rw [receive_location_ok_state]
    rfl

/-- C2 counterexample: the claim "all absent optional fields are stored as
null" fails for `is_live`: with the empty payload (key absent) the stored
`is_live` is the boolean `false`, not null, because the code reads it with
`data.get('is_live', False)`. -/
theorem ingest_echo_counterexample :
    ([] : Payload).lookup "is_live" = none
    ∧ (buildRecord env0 ctx0 []).is_live = JVal.bool false
    ∧ JVal.bool false ≠ JVal.null :=
  ⟨rfl, rfl, by decide⟩

/-- C2 (amended): the record built (and echoed on success) carries the
server-assigned id and timestamp; every payload-copied field equals the
client value when the key is present and is stored as null when absent —
except `is_live`, which is stored as the client value when present and as
the boolean `false` when absent; and `session_id` is resolved exactly as
line 99 does: a present truthy value (non-empty string, but also any other
truthy JSON value such as a non-zero number) is kept verbatim, while an
absent key or a present falsy value (null, empty string, 0, false) yields
the freshly generated id. -/
theorem ingest_echo_amended :
    ∀ (env : ServerEnv) (ctx : ReqCtx) (p : Payload),
      ((buildRecord env ctx p).id = env.record_id)
      ∧ ((buildRecord env ctx p).timestamp = env.now)
      ∧ (∀ k f, (k, f) ∈ payloadFieldTable →
          (∀ v, p.lookup k = some v → f (buildRecord env ctx p) = v)
          ∧ (p.lookup k = none → f (buildRecord env ctx p) = JVal.null))
      ∧ (∀ v, p.lookup "session_id" = some v → v.truthy = true →
          (buildRecord env ctx p).session_id = v)
      ∧ (∀ v, p.lookup "session_id" = some v → v.truthy = false →
          (buildRecord env ctx p).session_id = .str env.fresh_sid)
      ∧ (p.lookup "session_id" = none →
          (buildRecord env ctx p).session_id = .str env.fresh_sid)
      ∧ (p.lookup "is_live" = none → (buildRecord env ctx p).is_live = .bool false)
      ∧ (∀ v, p.lookup "is_live" = some v → (buildRecord env ctx p).is_live = v) := by
  intro env ctx p
  refine ⟨rfl, rfl, ?_, ?_, ?_, ?_, ?_, ?_⟩
  · intro k f hmem
    fin_cases hmem <;>
      exact ⟨fun v h => by simp [buildRecord, buildDeviceInfo, Payload.pget, h],
             fun h => by simp [buildRecord, buildDeviceInfo, Payload.pget, h]⟩
  · intro v hv ht
    simp [buildRecord, resolveSession, Payload.pget, hv, ht]
  · intro v hv ht
    simp [buildRecord, resolveSession, Payload.pget, hv, ht]
  · intro h
    simp [buildRecord, resolveSession, Payload.pget, h, JVal.truthy]
  · intro h
    simp [buildRecord, Payload.pgetD, h]
  · intro v h
    simp [buildRecord, Payload.pgetD, h]

/-- Witness for C2 (amended): on `p0` the present latitude and is_live are
echoed and the absent longitude is stored as null, the non-empty string
session id is kept; on `p1` the truthy numeric session id 5 is kept
verbatim; on `p2` the explicit-null (falsy) session id is replaced by the
fresh id. -/
theorem ingest_echo_amended_witness :
    (buildRecord env0 ctx0 p0).latitude = JVal.num 37
    ∧ (buildRecord env0 ctx0 p0).longitude = JVal.null
    ∧ (buildRecord env0 ctx0 p0).session_id = JVal.str "s1"
    ∧ (buildRecord env0 ctx0 p0).is_live = JVal.bool true
    ∧ (buildRecord env0 ctx0 p1).session_id = JVal.num 5
    ∧ (buildRecord env0 ctx0 p2).session_id = JVal.str "fresh-1" := by
  have h := ingest_echo_amended env0 ctx0 p0
  have h1 := ingest_echo_amended env0 ctx0 p1
  have h2 := ingest_echo_amended env0 ctx0 p2
  have ht5 : (JVal.num 5).truthy = true := by
    simp [JVal.truthy]
  refine ⟨?_, ?_, ?_, ?_, ?_, ?_⟩
  · exact (h.2.2.1 "latitude" (fun r => r.latitude)
      (List.mem_cons_self _ _)).1 _ rfl
  · exact (h.2.2.1 "longitude" (fun r => r.longitude)
      (List.mem_cons_of_mem _ (List.mem_cons_self _ _))).2 rfl
  · exact h.2.2.2.1 (JVal.str "s1") rfl rfl
  · exact h.2.2.2.2.2.2.2 _ rfl
  · exact h1.2.2.2.1 (JVal.num 5) rfl ht5
  · exact h2.2.2.2.2.1 JVal.null rfl rfl

/-- C3: a request body that failed to parse yields the 400 error response
with the store untouched — but the claim that no record is persisted when
the generic failure is returned is violated by the code: on the valid JSON
body `{}` the record is appended to the store, after which the console-log
f-string raises while formatting the null latitude, and the handler
answers 400 with the exception text although the record (and the session
summary) were persisted. -/
theorem ingest_error_despite_persist :
    (∀ env ctx st m, receive_location env ctx st (.error m) = (⟨400, .errorMsg m⟩, st))
    ∧ (receive_location env0 ctx0 ⟨[], []⟩ (.ok [])).1
        = ⟨400, .errorMsg "unsupported format string passed to NoneType.__format__"⟩
    ∧ (receive_location env0 ctx0 ⟨[], []⟩ (.ok [])).2.locations
        = [buildRecord env0 ctx0 []] :=
  ⟨fun _ _ _ _ => rfl, rfl, rfl⟩

end GeoTracker
